import Mathlib

/-!
Verification of bundrop (src/index.ts): request routing and randomized-path
file serving, the in-memory client ledger, and the cloudflared tunnel
output-scraping state machine, as a shallow embedding.
-/

namespace Bundrop

/-- JS `path.basename` (POSIX, as used at src/index.ts:105): drop trailing
slashes, then keep the part after the last remaining slash. -/
def basename (p : String) : String :=
  String.mk (((p.data.reverse.dropWhile (fun c => c == '/')).takeWhile
    (fun c => c != '/')).reverse)

/-- Base-36 digit character as printed by JS `Number.prototype.toString(36)`:
0-9 then a-z. -/
def digitChar36 (d : Nat) : Char :=
  if d < 10 then Char.ofNat (48 + d) else Char.ofNat (87 + d)

/-- The first `n` base-36 fractional digits of the dyadic rational `k / 2^53`. -/
def fracDigits36 : Nat → Nat → List Nat
  | 0, _ => []
  | n + 1, k => (36 * k / 2 ^ 53) :: fracDigits36 n (36 * k % 2 ^ 53)

def dropTrailingZeros (l : List Nat) : List Nat :=
  (l.reverse.dropWhile (fun d => d == 0)).reverse

/-- Model of `Math.random().toString(36).substring(2, 7)` (src/index.ts:106).
`Math.random()` returns a double `k / 2^53` with `0 ≤ k < 2^53`; `toString(36)`
prints `"0."` followed by the base-36 fractional digits of that exact dyadic
rational with trailing zeros omitted (just `"0"` when k = 0; 27 digits always
suffice since `k / 2^53 * 36^27` is integral); `substring(2, 7)` keeps the
first five characters after the `"0."`. -/
def jsRandomToken (k : Nat) : String :=
  String.mk (((dropTrailingZeros (fracDigits36 27 k)).take 5).map digitChar36)

/-- Model of `(fileSize / (1024 * 1024)).toFixed(2)` as hundredths
(src/index.ts:379): `S / 2^20` is exact in a double for `S < 2^53`, and
`toFixed(2)` picks the integer `n` with `n / 100` closest to the value,
ties toward the larger `n`. -/
def fixedHundredths (s : Nat) : Nat := (200 * s + 2 ^ 20) / 2 ^ 21

def pad2 (n : Nat) : String :=
  if n < 10 then ("0") ++ toString n else toString n

/-- The rendered `fileSizeMB` string of src/index.ts:379. -/
def fileSizeMB (s : Nat) : String :=
  toString (fixedHundredths s / 100) ++ "." ++ pad2 (fixedHundredths s % 100)

/-- The startup-time served-file record: `filePath`, `fileName`
(src/index.ts:105), `urlPath` (src/index.ts:106) and `fileSize`
(src/index.ts:110). -/
structure ServedFile where
  filePath : String
  fileName : String
  urlPath : String
  fileSize : Nat
deriving DecidableEq

/-- Startup wiring: `fileName` is `path.basename(filePath)` (src/index.ts:105). -/
def mkServedFile (filePath urlPath : String) (fileSize : Nat) : ServedFile :=
  { filePath := filePath, fileName := basename filePath, urlPath := urlPath,
    fileSize := fileSize }

/-- A response body: the lazy `Bun.file` reference, the HTML page, or plain text. -/
inductive Body
  | fileBytes (path : String)
  | page (html : String)
  | text (s : String)
deriving DecidableEq

/-- An HTTP response as built by the `fetch` handler: status (200 is the
`Response` default), the headers the handler sets, and the body. -/
structure Resp where
  status : Nat
  contentType : Option String
  contentDisposition : Option String
  contentLength : Option String
  body : Body
deriving DecidableEq

def notFoundBody : String :=
  "Hi there! Looks like you landed on the main page.\n"
    ++ "To get your file, just make sure to use the special link we gave you.\n"

def htmlPart1 : String :=
    "\n"
    ++ "<!DOCTYPE html>\n"
    ++ "<html lang=\"en\">\n"
    ++ "<head>\n"
    ++ "    <meta charset=\"UTF-8\">\n"
    ++ "    <meta name=\"viewport\" content=\"width=device-width, initial-scale=1.0\">\n"
    ++ "    <title>Download "

def htmlPart2 : String :=
    "</title>\n"
    ++ "    <style>\n"
    ++ "        * \x7b\n"
    ++ "            margin: 0;\n"
    ++ "            padding: 0;\n"
    ++ "            box-sizing: border-box;\n"
    ++ "        \x7d\n"
    ++ "        \n"
    ++ "        body \x7b\n"
    ++ "            font-family: -apple-system, BlinkMacSystemFont, \x27Segoe UI\x27, Roboto, sans-serif;\n"
    ++ "            background: linear-gradient(135deg, #667eea 0%, #764ba2 100%);\n"
    ++ "            min-height: 100vh;\n"
    ++ "            display: flex;\n"
    ++ "            align-items: center;\n"
    ++ "            justify-content: center;\n"
    ++ "            padding: 20px;\n"
    ++ "        \x7d\n"
    ++ "        \n"
    ++ "        .container \x7b\n"
    ++ "            background: rgba(255, 255, 255, 0.95);\n"
    ++ "            backdrop-filter: blur(10px);\n"
    ++ "            border-radius: 20px;\n"
    ++ "            padding: 40px;\n"
    ++ "            box-shadow: 0 20px 40px rgba(0, 0, 0, 0.1);\n"
    ++ "            text-align: center;\n"
    ++ "            max-width: 500px;\n"
    ++ "            width: 100%;\n"
    ++ "        \x7d\n"
    ++ "        \n"
    ++ "        .file-icon \x7b\n"
    ++ "            width: 80px;\n"
    ++ "            height: 80px;\n"
    ++ "            background: linear-gradient(135deg, #4facfe 0%, #00f2fe 100%);\n"
    ++ "            border-radius: 20px;\n"
    ++ "            display: flex;\n"
    ++ "            align-items: center;\n"
    ++ "            justify-content: center;\n"
    ++ "            margin: 0 auto 30px;\n"
    ++ "            font-size: 32px;\n"
    ++ "            color: white;\n"
    ++ "        \x7d\n"
    ++ "        \n"
    ++ "        .file-name \x7b\n"
    ++ "            font-size: 24px;\n"
    ++ "            font-weight: 600;\n"
    ++ "            color: #2d3748;\n"
    ++ "            margin-bottom: 10px;\n"
    ++ "            word-break: break-all;\n"
    ++ "        \x7d\n"
    ++ "        \n"
    ++ "        .file-size \x7b\n"
    ++ "            color: #718096;\n"
    ++ "            font-size: 16px;\n"
    ++ "            margin-bottom: 30px;\n"
    ++ "        \x7d\n"
    ++ "        \n"
    ++ "        .download-btn \x7b\n"
    ++ "            background: linear-gradient(135deg, #667eea 0%, #764ba2 100%);\n"
    ++ "            color: white;\n"
    ++ "            border: none;\n"
    ++ "            padding: 16px 32px;\n"
    ++ "            border-radius: 12px;\n"
    ++ "            font-size: 18px;\n"
    ++ "            font-weight: 600;\n"
    ++ "            cursor: pointer;\n"
    ++ "            text-decoration: none;\n"
    ++ "            display: inline-block;\n"
    ++ "            transition: transform 0.2s, box-shadow 0.2s;\n"
    ++ "            margin-bottom: 30px;\n"
    ++ "        \x7d\n"
    ++ "        \n"
    ++ "        .download-btn:hover \x7b\n"
    ++ "            transform: translateY(-2px);\n"
    ++ "            box-shadow: 0 10px 25px rgba(102, 126, 234, 0.3);\n"
    ++ "        \x7d\n"
    ++ "        \n"
    ++ "        .footer \x7b\n"
    ++ "            color: #a0aec0;\n"
    ++ "            font-size: 14px;\n"
    ++ "            margin-top: 20px;\n"
    ++ "        \x7d\n"
    ++ "        \n"
    ++ "        .footer a \x7b\n"
    ++ "            color: #667eea;\n"
    ++ "            text-decoration: none;\n"
    ++ "            font-weight: 500;\n"
    ++ "        \x7d\n"
    ++ "        \n"
    ++ "        .footer a:hover \x7b\n"
    ++ "            text-decoration: underline;\n"
    ++ "        \x7d\n"
    ++ "    </style>\n"
    ++ "</head>\n"
    ++ "<body>\n"
    ++ "    <div class=\"container\">\n"
    ++ "        <div class=\"file-icon\">📁</div>\n"
    ++ "        <div class=\"file-name\">"

def htmlPart3 : String :=
    "</div>\n"
    ++ "        <div class=\"file-size\">"

def htmlPart4 : String :=
    "</div>\n"
    ++ "        <a href=\"/download/"

def htmlPart5 : String :=
    "\" class=\"download-btn\">Download File</a>\n"
    ++ "        <div class=\"footer\">\n"
    ++ "            Powered by <a href=\"https://github.com/jamonholmgren/bundrop\" target=\"_blank\">bundrop</a>\n"
    ++ "        </div>\n"
    ++ "    </div>\n"
    ++ "</body>\n"
    ++ "</html>"

/-- The HTML page of src/index.ts:380-490, with its three interpolation
points `${fileName}` (twice), `${fileSizeMB}` and `${urlPath}`. -/
def renderHtml (f : ServedFile) : String :=
  htmlPart1 ++ f.fileName ++ htmlPart2 ++ f.fileName ++ htmlPart3
    ++ fileSizeMB f.fileSize ++ " MB" ++ htmlPart4 ++ f.urlPath ++ htmlPart5

/-- The route dispatch of the `fetch` handler (src/index.ts:365-502), after the
ledger hit: exact-match download route, then exact-match info route, then the
static 404 fallback. -/
def route (f : ServedFile) (pathname : String) : Resp :=
  if pathname = "/download/" ++ f.urlPath then
    { status := 200
      contentType := some ("application/octet-stream")
      contentDisposition := some ("attachment; filename=\"" ++ f.fileName ++ "\"")
      contentLength := some (toString f.fileSize)
      body := Body.fileBytes f.filePath }
  else if pathname = "/" ++ f.urlPath then
    { status := 200, contentType := some ("text/html"), contentDisposition := none,
      contentLength := none, body := Body.page (renderHtml f) }
  else
    { status := 404, contentType := none, contentDisposition := none,
      contentLength := none, body := Body.text notFoundBody }

/-- Request-time file system: a path maps to the file's bytes, or to `none`
when the file is unreadable (deleted/moved after startup). -/
def FileSystem : Type := String → Option (List Nat)

/-- The bytes a response body resolves to against the request-time file
system; the lazy `Bun.file` reference is read at send time. -/
def respBytes (fs : FileSystem) : Body → Option (List Nat)
  | Body.fileBytes p => fs p
  | Body.page h => some (h.toUTF8.toList.map (fun b => b.toNat))
  | Body.text s => some (s.toUTF8.toList.map (fun b => b.toNat))

/-- Modelled from the spec: the delivery of a response whose body is a lazy
file reference happens inside the `Bun.serve`/`Bun.file` runtime, which is not
part of src/; per the spec, a file unreadable at request time yields a 5xx
response (and the server keeps serving) instead of crashing the process. -/
def deliver (fs : FileSystem) (r : Resp) : Resp :=
  match r.body with
  | Body.fileBytes p => if (fs p).isSome then r else { r with status := 500 }
  | _ => r

/-- The per-client record of src/index.ts:30-34. -/
structure ClientInfo where
  ip : String
  ua : String
  count : Nat
deriving DecidableEq

/-- The ledger key `ip + "::" + ua` (src/index.ts:339). -/
def clientKey (ip ua : String) : String := ip ++ "::" ++ ua

/-- `Map.get` on the embedded client map. -/
def mapGet (m : List (String × ClientInfo)) (k : String) : Option ClientInfo :=
  (m.find? (fun e => e.1 == k)).map Prod.snd

/-- `Map.set` on the embedded client map: replace in place, else append. -/
def mapSet (m : List (String × ClientInfo)) (k : String) (v : ClientInfo) :
    List (String × ClientInfo) :=
  match m with
  | [] => [(k, v)]
  | e :: rest => if e.1 = k then (k, v) :: rest else e :: mapSet rest k v

/-- `logRequest` (src/index.ts:338-353): the updated map and the running count
it logs for this client key. -/
def logRequest (m : List (String × ClientInfo)) (ip ua : String) :
    List (String × ClientInfo) × Nat :=
  let key := clientKey ip ua
  match mapGet m key with
  | some info =>
    (mapSet m key { info with count := info.count + 1 }, info.count + 1)
  | none => (mapSet m key { ip := ip, ua := ua, count := 1 }, 1)

/-- An incoming request: path, and the remote address / user-agent header,
each possibly absent. -/
structure Request where
  path : String
  ip : Option String
  ua : Option String

/-- One `fetch` invocation (src/index.ts:358-503): default the address and
user-agent to "unknown", record the ledger hit, then route. -/
def handle (f : ServedFile) (m : List (String × ClientInfo)) (req : Request) :
    List (String × ClientInfo) × Nat × Resp :=
  let ip := req.ip.getD ("unknown")
  let ua := req.ua.getD ("unknown")
  let lr := logRequest m ip ua
  (lr.1, lr.2, route f req.path)

/-- Serve a request sequence in order, collecting each request's logged count. -/
def serveAll (f : ServedFile) (m : List (String × ClientInfo)) :
    List Request → List (String × ClientInfo) × List Nat
  | [] => (m, [])
  | r :: rs =>
    let h := handle f m r
    let rest := serveAll f h.1 rs
    (rest.1, h.2.1 :: rest.2)

/-- The character class `[a-zA-Z0-9-]` of the tunnel-URL regex
(src/index.ts:215, 244). -/
def isTunnelChar (c : Char) : Bool := c.isAlpha || c.isDigit || c == '-'

/-- Match the regex `https:\/\/[a-zA-Z0-9-]+\.trycloudflare\.com` at the head
of `cs`. Because `'.'` is not in the character class, the greedy `+` admits no
successful shorter backtrack: a match starts here iff the maximal class run
after `https://` is nonempty and is followed by the literal tail, so this
captures exactly the JS regex semantics at this position. -/
def matchAt (cs : List Char) : Option (List Char) :=
  if ("https://".data.isPrefixOf cs) then
    let rest := cs.drop 8
    let run := rest.takeWhile isTunnelChar
    if run.isEmpty then none
    else if (".trycloudflare.com".data.isPrefixOf (rest.dropWhile isTunnelChar)) then
      some ("https://".data ++ run ++ ".trycloudflare.com".data)
    else none
  else none

def findAux : List Char → Option (List Char)
  | [] => none
  | c :: cs =>
    match matchAt (c :: cs) with
    | some m => some m
    | none => findAux cs

/-- `output.match(/https:\/\/[a-zA-Z0-9-]+\.trycloudflare\.com/)`
(src/index.ts:214-216, 243-245): the leftmost match, as the matched string. -/
def findTunnelURL (s : String) : Option String :=
  (findAux s.data).map (fun l => String.mk l)

/-- The asynchronous events that can occur inside `runCloudFlaredTunnel`
(src/index.ts:196-282): a chunk arriving on either captured stream, the single
30-second timer firing, and the subprocess exiting with a code. -/
inductive TunnelEvent
  | stdoutChunk (s : String)
  | stderrChunk (s : String)
  | timeout
  | procExit (code : Int)
deriving DecidableEq

/-- The mutable state of one `runCloudFlaredTunnel` invocation: the shared
`output` buffer, the `urlFound` flag, the promise's resolution (`none` while
pending), whether `proc.kill()` was invoked, and which console error messages
were printed. -/
structure TunnelState where
  output : String
  urlFound : Bool
  result : Option (Option String)
  killed : Bool
  timeoutMsg : Bool
  exitMsg : Bool
deriving DecidableEq

def initTunnel : TunnelState :=
  { output := "", urlFound := false, result := none,
    killed := false, timeoutMsg := false, exitMsg := false }

/-- `resolve(v)`: a JS promise resolves at most once; later calls are no-ops
for the resolved value. -/
def resolveT (st : TunnelState) (v : Option String) : TunnelState :=
  if st.result.isNone then { st with result := some v } else st

/-- A chunk arriving on either stream (src/index.ts:202-227 and 231-256, the
two readers run the same code on the shared buffer): append the chunk to
`output`, then test the whole buffer; on a match with `!urlFound`, set
`urlFound` and resolve with the matched URL. -/
def onChunk (st : TunnelState) (s : String) : TunnelState :=
  let out := st.output ++ s
  match findTunnelURL out with
  | some u =>
    if st.urlFound then { st with output := out }
    else resolveT { st with output := out, urlFound := true } (some u)
  | none => { st with output := out }

/-- One asynchronous event of `runCloudFlaredTunnel`: the timer callback
(src/index.ts:263-270) prints the timeout error, kills the subprocess and
resolves `null` whenever `!urlFound`; the exit continuation
(src/index.ts:273-281) prints the exited error and resolves `null` whenever
`!urlFound` — the exit code is only written to the debug log, never into the
resolved value. -/
def step (st : TunnelState) : TunnelEvent → TunnelState
  | TunnelEvent.stdoutChunk s => onChunk st s
  | TunnelEvent.stderrChunk s => onChunk st s
  | TunnelEvent.timeout =>
    if st.urlFound then st
    else resolveT { st with killed := true, timeoutMsg := true } none
  | TunnelEvent.procExit _ =>
    if st.urlFound then st
    else resolveT { st with exitMsg := true } none

/-- One `runCloudFlaredTunnel` invocation observed as the sequence of
asynchronous events that fired, in order. -/
def runTunnel (evs : List TunnelEvent) : TunnelState :=
  evs.foldl step initTunnel

/-- A concrete served file for witnesses: startup on `/tmp/docs/a.txt` of
7 bytes with access token `q1w2e`. -/
def file0 : ServedFile := mkServedFile ("/tmp/docs/a.txt") ("q1w2e") 7

/-- A concrete request-time file system in which `file0`'s path holds 7 bytes. -/
def fs0 : FileSystem :=
  fun p => if p = "/tmp/docs/a.txt" then some (List.replicate 7 0) else none

/-- A request-time file system in which every file is unreadable. -/
def fsGone : FileSystem := fun _ => none

theorem fracDigits36_lt_36 : ∀ n k, k < 2 ^ 53 → ∀ d ∈ fracDigits36 n k, d < 36 := by
  intro n
  induction n with
  | zero => intro k _ d hd; simp [fracDigits36] at hd
  | succ n ih =>
    intro k hk d hd
    simp only [fracDigits36, List.mem_cons] at hd
    rcases hd with h | h
    · subst h
      exact Nat.div_lt_of_lt_mul (by omega)
    · exact ih (36 * k % 2 ^ 53) (Nat.mod_lt _ (by positivity)) d h

theorem mem_dropTrailingZeros {l : List Nat} {d : Nat}
    (h : d ∈ dropTrailingZeros l) : d ∈ l := by
  unfold dropTrailingZeros at h
  rw [List.mem_reverse] at h
  exact List.mem_reverse.mp ((List.dropWhile_sublist _).mem h)

theorem digitChar36_alphanum : ∀ d, d < 36 → (digitChar36 d).isAlphanum = true := by
  decide

/-- C1: For every incoming HTTP request, routing is decided in order against
the request path: a path exactly equal to `/download/{accessToken}` is answered
with the file's bytes, status 200, Content-Type `application/octet-stream`,
Content-Disposition `attachment; filename="{displayName}"` and Content-Length
`{sizeBytes}`; a path exactly equal to `/{accessToken}` is answered with the
HTML page with Content-Type `text/html`; every other path is answered with
status 404 and the static informational body. -/
theorem C1_routing (f : ServedFile) (p : String) :
    (p = "/download/" ++ f.urlPath →
      (route f p).status = 200 ∧
      (route f p).contentType = some ("application/octet-stream") ∧
      (route f p).contentDisposition
        = some ("attachment; filename=\"" ++ f.fileName ++ "\"") ∧
      (route f p).contentLength = some (toString f.fileSize) ∧
      (route f p).body = Body.fileBytes f.filePath) ∧
    (p ≠ "/download/" ++ f.urlPath → p = "/" ++ f.urlPath →
      (route f p).contentType = some ("text/html") ∧
      (route f p).body = Body.page (renderHtml f)) ∧
    (p ≠ "/download/" ++ f.urlPath → p ≠ "/" ++ f.urlPath →
      (route f p).status = 404 ∧ (route f p).body = Body.text notFoundBody) := by
  refine ⟨fun h => ?_, fun h1 h2 => ?_, fun h1 h2 => ?_⟩
  · subst h; simp [route]
  · subst h2; simp [route, h1]
  · simp [route, h1, h2]

theorem C1_routing_witness :
    ((route file0 ("/download/q1w2e")).status = 200 ∧
     (route file0 ("/download/q1w2e")).contentType = some ("application/octet-stream") ∧
     (route file0 ("/download/q1w2e")).contentDisposition
       = some ("attachment; filename=\"" ++ file0.fileName ++ "\"") ∧
     (route file0 ("/download/q1w2e")).contentLength = some (toString file0.fileSize) ∧
     (route file0 ("/download/q1w2e")).body = Body.fileBytes file0.filePath) ∧
    ((route file0 ("/q1w2e")).contentType = some ("text/html") ∧
     (route file0 ("/q1w2e")).body = Body.page (renderHtml file0)) ∧
    ((route file0 ("/nothing-here")).status = 404 ∧
     (route file0 ("/nothing-here")).body = Body.text notFoundBody) :=
  ⟨(C1_routing file0 ("/download/q1w2e")).1 (by decide),
   (C1_routing file0 ("/q1w2e")).2.1 (by decide) (by decide),
   (C1_routing file0 ("/nothing-here")).2.2 (by decide) (by decide)⟩

/-- C2 (code bug): the claim reads "every access token produced by the
generator at startup is an alphanumeric string of length at least 5
characters".  The generator `Math.random().toString(36).substring(2, 7)` does
produce only base-36 (alphanumeric) characters and never more than five, but
for random values with a short base-36 expansion it produces fewer than five:
`Math.random() = 0.5` (k = 2^52) yields the one-character token `"i"`, and
`Math.random() = 0` yields the empty token. -/
theorem C2_token_length : jsRandomToken (2 ^ 52) = "i" ∧
    (jsRandomToken (2 ^ 52)).length = 1 ∧
    jsRandomToken 0 = "" ∧
    ∀ k, k < 2 ^ 53 → (jsRandomToken k).length ≤ 5 ∧
      ∀ c ∈ (jsRandomToken k).data, c.isAlphanum = true := by
  refine ⟨by decide, by decide, by decide, fun k hk => ⟨?_, ?_⟩⟩
  · have h : (jsRandomToken k).length
        = (((dropTrailingZeros (fracDigits36 27 k)).take 5).map digitChar36).length := rfl
    rw [h, List.length_map, List.length_take]
    omega
  · intro c hc
    have hc' : c ∈ ((dropTrailingZeros (fracDigits36 27 k)).take 5).map digitChar36 := hc
    rcases List.mem_map.mp hc' with ⟨d, hd, hdc⟩
    have hd1 : d ∈ dropTrailingZeros (fracDigits36 27 k) :=
      (List.take_sublist _ _).mem hd
    have hd2 : d < 36 := fracDigits36_lt_36 27 k hk d (mem_dropTrailingZeros hd1)
    rw [← hdc]
    exact digitChar36_alphanum d hd2

theorem C2_token_length_witness :
    (jsRandomToken 123456789012345).length ≤ 5 ∧
    ∀ c ∈ (jsRandomToken 123456789012345).data, c.isAlphanum = true :=
  C2_token_length.2.2.2 123456789012345 (by norm_num)

/-- C10: the ledger key encoding `ip ++ "::" ++ ua` is not injective: the
distinct client pairs ("a::b", "c") and ("a", "b::c") encode to the same key,
so two requests from those two distinct clients increment one shared counter
(the second request logs count 2) instead of two independent ones. -/
theorem C10_key_collision :
    clientKey ("a::b") ("c") = clientKey ("a") ("b::c") ∧
    ("a::b", "c") ≠ (("a", "b::c") : String × String) ∧
    (serveAll file0 []
      [{ path := "/", ip := some ("a::b"), ua := some ("c") },
       { path := "/", ip := some ("a"), ua := some ("b::c") }]).2 = [1, 2] := by
  refine ⟨by decide, by decide, by decide⟩

theorem mapGet_mapSet_self (m : List (String × ClientInfo)) (k : String)
    (v : ClientInfo) : mapGet (mapSet m k v) k = some v := by
  induction m with
  | nil => simp [mapGet, mapSet, List.find?]
  | cons e rest ih =>
    by_cases h : e.1 = k
    · simp [mapSet, h, mapGet, List.find?]
    · simpa [mapSet, h, mapGet, List.find?] using ih

theorem serveAll_counts_aux (f : ServedFile) (ip ua : Option String) :
    ∀ (ps : List String) (m : List (String × ClientInfo)) (cnt : Nat),
      ((mapGet m (clientKey (ip.getD ("unknown")) (ua.getD ("unknown"))) = none ∧
          cnt = 0) ∨
        (∃ i, mapGet m (clientKey (ip.getD ("unknown")) (ua.getD ("unknown")))
            = some i ∧ i.count = cnt)) →
      (serveAll f m (ps.map fun p => { path := p, ip := ip, ua := ua })).2
        = List.range' (cnt + 1) ps.length := by
  intro ps
  induction ps with
  | nil => intro m cnt _; simp [serveAll]
  | cons p rest ih =>
    intro m cnt h
    rcases h with ⟨hm, hc⟩ | ⟨i, hm, hc⟩
    · subst hc
      have h1 := ih (mapSet m (clientKey (ip.getD ("unknown")) (ua.getD ("unknown")))
          { ip := ip.getD ("unknown"), ua := ua.getD ("unknown"), count := 1 }) 1
        (Or.inr ⟨_, mapGet_mapSet_self _ _ _, rfl⟩)
      simp [serveAll, handle, logRequest, hm, List.range'_succ, h1]
    · subst hc
      have h1 := ih (mapSet m (clientKey (ip.getD ("unknown")) (ua.getD ("unknown")))
          { i with count := i.count + 1 }) (i.count + 1)
        (Or.inr ⟨_, mapGet_mapSet_self _ _ _, rfl⟩)
      simp [serveAll, handle, logRequest, hm, List.range'_succ, h1]

/-- C4: every request, whichever route it hits, records exactly one ledger hit
keyed on (remote address, user-agent header) with each component defaulting to
"unknown" when absent — the ledger update is exactly the `logRequest` update
and is independent of the request path — and every sequence of N requests
sharing the same (address, user-agent) key yields logged counts 1, 2, ..., N
in request order. -/
theorem C4_ledger (f : ServedFile) (m : List (String × ClientInfo))
    (req : Request) (p2 : String) (ip ua : Option String) (ps : List String) :
    ((handle f m req).1
        = (logRequest m (req.ip.getD ("unknown")) (req.ua.getD ("unknown"))).1 ∧
     (handle f m req).2.1
        = (logRequest m (req.ip.getD ("unknown")) (req.ua.getD ("unknown"))).2 ∧
     (handle f m req).1 = (handle f m { req with path := p2 }).1) ∧
    (serveAll f [] (ps.map fun p => { path := p, ip := ip, ua := ua })).2
      = List.range' 1 ps.length := by
  refine ⟨⟨rfl, rfl, rfl⟩, ?_⟩
  simpa using serveAll_counts_aux f ip ua ps [] 0 (Or.inl ⟨rfl, rfl⟩)

/-- C5: for a served file of size S, the download route's response body
resolves to exactly the file's S bytes and its Content-Length header is S. -/
theorem C5_download_length (f : ServedFile) (fs : FileSystem) (bytes : List Nat)
    (hread : fs f.filePath = some bytes) (hsize : bytes.length = f.fileSize) :
    respBytes fs (route f ("/download/" ++ f.urlPath)).body = some bytes ∧
    bytes.length = f.fileSize ∧
    (route f ("/download/" ++ f.urlPath)).contentLength
      = some (toString f.fileSize) := by
  refine ⟨?_, hsize, ?_⟩ <;> simp [route, respBytes, hread]

theorem C5_download_length_witness :
    respBytes fs0 (route file0 ("/download/" ++ file0.urlPath)).body
      = some (List.replicate 7 0) ∧
    (List.replicate 7 (0 : Nat)).length = file0.fileSize ∧
    (route file0 ("/download/" ++ file0.urlPath)).contentLength
      = some (toString file0.fileSize) :=
  C5_download_length file0 fs0 (List.replicate 7 0) rfl rfl

theorem info_ne_download (u : String) : "/" ++ u ≠ "/download/" ++ u := by
  intro h
  have h2 : ("/" ++ u).length = ("/download/" ++ u).length := congrArg _ h
  rw [String.length_append, String.length_append] at h2
  have e1 : ("/" : String).length = 1 := rfl
  have e2 : ("/download/" : String).length = 10 := rfl
  omega

/-- C6 (modelled from the spec for the delivery step): when the served file is
unreadable at request time, the download route's delivered response has a 5xx
status, while the server keeps answering: the info route still delivers 200
and every other path still delivers 404. -/
theorem C6_unreadable (f : ServedFile) (fs : FileSystem)
    (hgone : fs f.filePath = none) :
    (500 ≤ (deliver fs (route f ("/download/" ++ f.urlPath))).status ∧
     (deliver fs (route f ("/download/" ++ f.urlPath))).status < 600) ∧
    (deliver fs (route f ("/" ++ f.urlPath))).status = 200 ∧
    (∀ p, p ≠ "/download/" ++ f.urlPath → p ≠ "/" ++ f.urlPath →
      (deliver fs (route f p)).status = 404) := by
  refine ⟨?_, ?_, fun p h1 h2 => ?_⟩
  · simp [route, deliver, hgone]
  · have hne := info_ne_download f.urlPath
    simp [route, hne, deliver]
  · simp [route, h1, h2, deliver]

theorem C6_unreadable_witness :
    (500 ≤ (deliver fsGone (route file0 ("/download/" ++ file0.urlPath))).status ∧
     (deliver fsGone (route file0 ("/download/" ++ file0.urlPath))).status < 600) ∧
    (deliver fsGone (route file0 ("/" ++ file0.urlPath))).status = 200 ∧
    (deliver fsGone (route file0 ("/zzz"))).status = 404 :=
  ⟨(C6_unreadable file0 fsGone rfl).1, (C6_unreadable file0 fsGone rfl).2.1,
   (C6_unreadable file0 fsGone rfl).2.2 ("/zzz") (by decide) (by decide)⟩

theorem resolveT_isSome (st : TunnelState) (v : Option String) :
    (resolveT st v).result.isSome = true := by
  cases hr : st.result <;> simp [resolveT, hr]

theorem resolveT_result_some {st : TunnelState} {x : Option String}
    (v : Option String) (h : st.result = some x) :
    (resolveT st v).result = some x := by
  simp [resolveT, h]

theorem resolveT_killed (st : TunnelState) (v : Option String) :
    (resolveT st v).killed = st.killed := by
  unfold resolveT; split <;> rfl

theorem step_result_some {st : TunnelState} {x : Option String} (e : TunnelEvent)
    (h : st.result = some x) : (step st e).result = some x := by
  cases e with
  | stdoutChunk s | stderrChunk s =>
    simp only [step, onChunk]
    cases hf : findTunnelURL (st.output ++ s) with
    | none => simpa using h
    | some u =>
      by_cases hu : st.urlFound
      · simpa [hu] using h
      · simp only [hu, if_false, Bool.false_eq_true]
        exact resolveT_result_some _ (by simpa using h)
  | timeout =>
    by_cases hu : st.urlFound
    · simpa [step, hu] using h
    · simp only [step, hu, if_false, Bool.false_eq_true]
      exact resolveT_result_some _ (by simpa using h)
  | procExit c =>
    by_cases hu : st.urlFound
    · simpa [step, hu] using h
    · simp only [step, hu, if_false, Bool.false_eq_true]
      exact resolveT_result_some _ (by simpa using h)

theorem foldl_result_some :
    ∀ (evs : List TunnelEvent) (st : TunnelState) (x : Option String),
      st.result = some x → ((evs.foldl step st).result) = some x := by
  intro evs
  induction evs with
  | nil => intro st x h; simpa using h
  | cons e rest ih => intro st x h; exact ih _ x (step_result_some e h)

theorem foldl_result_isSome (evs : List TunnelEvent) (st : TunnelState)
    (h : st.result.isSome = true) : ((evs.foldl step st).result).isSome = true := by
  rcases Option.isSome_iff_exists.mp h with ⟨x, hx⟩
  simp [foldl_result_some evs st x hx]

theorem step_inv {st : TunnelState} (e : TunnelEvent)
    (h : st.urlFound = true → st.result.isSome = true) :
    (step st e).urlFound = true → (step st e).result.isSome = true := by
  cases e with
  | stdoutChunk s | stderrChunk s =>
    simp only [step, onChunk]
    cases hf : findTunnelURL (st.output ++ s) with
    | none => simpa using h
    | some u =>
      by_cases hu : st.urlFound
      · simpa [hu] using h
      · simp only [hu, if_false, Bool.false_eq_true]
        intro
        exact resolveT_isSome _ _
  | timeout =>
    by_cases hu : st.urlFound
    · simpa [step, hu] using h
    · simp only [step, hu, if_false, Bool.false_eq_true]
      intro
      exact resolveT_isSome _ _
  | procExit c =>
    by_cases hu : st.urlFound
    · simpa [step, hu] using h
    · simp only [step, hu, if_false, Bool.false_eq_true]
      intro
      exact resolveT_isSome _ _

theorem foldl_inv :
    ∀ (evs : List TunnelEvent) (st : TunnelState),
      (st.urlFound = true → st.result.isSome = true) →
      ((evs.foldl step st).urlFound = true →
        ((evs.foldl step st).result).isSome = true) := by
  intro evs
  induction evs with
  | nil => intro st h; simpa using h
  | cons e rest ih => intro st h; exact ih _ (step_inv e h)

theorem runTunnel_inv (evs : List TunnelEvent) :
    (runTunnel evs).urlFound = true → ((runTunnel evs).result).isSome = true :=
  foldl_inv evs initTunnel (by simp [initTunnel])

theorem step_timeout_isSome {st : TunnelState}
    (h : st.urlFound = true → st.result.isSome = true) :
    (step st TunnelEvent.timeout).result.isSome = true := by
  by_cases hu : st.urlFound
  · simpa [step, hu] using h hu
  · simp only [step, hu, if_false, Bool.false_eq_true]
    exact resolveT_isSome _ _

theorem step_procExit_isSome {st : TunnelState} (c : Int)
    (h : st.urlFound = true → st.result.isSome = true) :
    (step st (TunnelEvent.procExit c)).result.isSome = true := by
  by_cases hu : st.urlFound
  · simpa [step, hu] using h hu
  · simp only [step, hu, if_false, Bool.false_eq_true]
    exact resolveT_isSome _ _

theorem foldl_result_none :
    ∀ (evs : List TunnelEvent) (st : TunnelState),
      (st.urlFound = true → st.result.isSome = true) →
      ((evs.foldl step st).result = none) →
      TunnelEvent.timeout ∉ evs ∧ ∀ c : Int, TunnelEvent.procExit c ∉ evs := by
  intro evs
  induction evs with
  | nil => intro st _ _; simp
  | cons e rest ih =>
    intro st hinv hnone
    rw [List.foldl_cons] at hnone
    have hrest := ih (step st e) (step_inv e hinv) hnone
    refine ⟨?_, fun c hmem => ?_⟩
    · intro hmem
      rcases List.mem_cons.mp hmem with he | hm
      · have hs := foldl_result_isSome rest (step st e)
          (by rw [← he]; exact step_timeout_isSome hinv)
        rw [hnone] at hs
        simp at hs
      · exact absurd hm hrest.1
    · rcases List.mem_cons.mp hmem with he | hm
      · have hs := foldl_result_isSome rest (step st e)
          (by rw [← he]; exact step_procExit_isSome c hinv)
        rw [hnone] at hs
        simp at hs
      · exact absurd hm (hrest.2 c)

/-- C3 (counterexample): the claim says the three tunnel outcomes are
distinguished, with ProcessExited carrying the exit code; but in the code both
an early subprocess exit (whatever its code) and the timeout resolve the same
value `null`: exits with code 3 and 7 and the plain timeout all produce the
identical resolved outcome, carrying no exit code. -/
theorem C3_counterexample :
    (runTunnel [TunnelEvent.procExit 3]).result = some none ∧
    (runTunnel [TunnelEvent.procExit 7]).result = some none ∧
    (runTunnel [TunnelEvent.timeout]).result = some none :=
  ⟨rfl, rfl, rfl⟩

/-- C3 (amended): every invocation resolves exactly one result value,
determined by whichever of {URL match, timeout, subprocess exit} occurs first
(first-resolution-wins at the promise level: once resolved, later events never
change the value); a timeout or an exit always resolves; but timeout and early
exit resolve the same value `null` — they are not distinguished in the outcome
and the exit code is not carried — while a match resolves the matched URL. -/
theorem C3_amended :
    (∀ (l r : List TunnelEvent) (x : Option String),
      (runTunnel l).result = some x → (runTunnel (l ++ r)).result = some x) ∧
    (∀ evs : List TunnelEvent, (runTunnel evs).result = none →
      TunnelEvent.timeout ∉ evs ∧ ∀ c : Int, TunnelEvent.procExit c ∉ evs) ∧
    (∀ c : Int, (runTunnel [TunnelEvent.procExit c]).result
      = (runTunnel [TunnelEvent.timeout]).result) ∧
    (∀ s u, findTunnelURL s = some u →
      (runTunnel [TunnelEvent.stdoutChunk s]).result = some (some u)) := by
  refine ⟨fun l r x h => ?_, fun evs h => ?_, fun c => rfl, fun s u h => ?_⟩
  · rw [runTunnel, List.foldl_append]
    exact foldl_result_some r _ x h
  · exact foldl_result_none evs initTunnel (by simp [initTunnel]) h
  · simp [runTunnel, List.foldl, step, onChunk, initTunnel, String.empty_append,
      h, resolveT]

theorem C3_amended_witness :
    (runTunnel ([TunnelEvent.timeout] ++ [TunnelEvent.procExit 5])).result
      = some none ∧
    (runTunnel [TunnelEvent.stdoutChunk ("https://ab.trycloudflare.com")]).result
      = some (some ("https://ab.trycloudflare.com")) ∧
    TunnelEvent.timeout ∉ ([] : List TunnelEvent) :=
  ⟨C3_amended.1 [TunnelEvent.timeout] [TunnelEvent.procExit 5] none (by decide),
   C3_amended.2.2.2 ("https://ab.trycloudflare.com") ("https://ab.trycloudflare.com")
     (by decide),
   (C3_amended.2.1 [] (by decide)).1⟩

/-- C7: the scanner accumulates every chunk from either stream into the one
running buffer before testing the URL pattern, so whenever, after any prefix of
events that has not yet resolved, a matching URL arrives split across two
separate stream writes (no match after the first write, a match after the
second), the invocation resolves with the full matched URL. -/
theorem C7_chunk_split (l : List TunnelEvent) (a b u : String)
    (hpend : (runTunnel l).result = none)
    (hfirst : findTunnelURL ((runTunnel l).output ++ a) = none)
    (hmatch : findTunnelURL ((runTunnel l).output ++ a ++ b) = some u) :
    (runTunnel (l ++ [TunnelEvent.stdoutChunk a, TunnelEvent.stderrChunk b])).result
      = some (some u) := by
  have hu : (runTunnel l).urlFound = false := by
    cases hf : (runTunnel l).urlFound
    · rfl
    · have := runTunnel_inv l hf
      rw [hpend] at this
      simp at this
  have happ : runTunnel (l ++ [TunnelEvent.stdoutChunk a, TunnelEvent.stderrChunk b])
      = step (step (runTunnel l) (TunnelEvent.stdoutChunk a))
          (TunnelEvent.stderrChunk b) := by
    rw [runTunnel, List.foldl_append]
    rfl
  have h1 : step (runTunnel l) (TunnelEvent.stdoutChunk a)
      = { runTunnel l with output := (runTunnel l).output ++ a } := by
    simp [step, onChunk, hfirst]
  rw [happ, h1]
  simp [step, onChunk, hmatch, hu, hpend, resolveT]

theorem C7_chunk_split_witness :
    (runTunnel ([] ++ [TunnelEvent.stdoutChunk ("tunnel at https://foo-ba"),
        TunnelEvent.stderrChunk ("r.trycloudflare.com ready")])).result
      = some (some ("https://foo-bar.trycloudflare.com")) :=
  C7_chunk_split [] "tunnel at https://foo-ba" "r.trycloudflare.com ready"
    "https://foo-bar.trycloudflare.com" rfl (by decide) (by decide)

theorem step_killed_eq {st : TunnelState} (e : TunnelEvent)
    (hne : e ≠ TunnelEvent.timeout) : (step st e).killed = st.killed := by
  cases e with
  | stdoutChunk s | stderrChunk s =>
    simp only [step, onChunk]
    cases hf : findTunnelURL (st.output ++ s) with
    | none => rfl
    | some u =>
      by_cases hu : st.urlFound
      · simp [hu]
      · simp [hu, resolveT_killed]
  | timeout => exact absurd rfl hne
  | procExit c =>
    by_cases hu : st.urlFound
    · simp [step, hu]
    · simp [step, hu, resolveT_killed]

theorem foldl_killed_no_timeout :
    ∀ (evs : List TunnelEvent) (st : TunnelState), TunnelEvent.timeout ∉ evs →
      ((evs.foldl step st).killed) = st.killed := by
  intro evs
  induction evs with
  | nil => intro st _; rfl
  | cons e rest ih =>
    intro st h
    rw [List.mem_cons, not_or] at h
    rw [List.foldl_cons, ih _ h.2, step_killed_eq e (fun he => h.1 he.symm)]

theorem step_found {st : TunnelState} (e : TunnelEvent) (h : st.urlFound = true) :
    (step st e).killed = st.killed ∧ (step st e).urlFound = true := by
  cases e with
  | stdoutChunk s | stderrChunk s =>
    simp only [step, onChunk]
    cases hf : findTunnelURL (st.output ++ s) with
    | none => exact ⟨rfl, h⟩
    | some u => simp [h]
  | timeout => simp [step, h]
  | procExit c => simp [step, h]

theorem foldl_after_found :
    ∀ (evs : List TunnelEvent) (st : TunnelState), st.urlFound = true →
      ((evs.foldl step st).killed = st.killed ∧
        (evs.foldl step st).urlFound = true) := by
  intro evs
  induction evs with
  | nil => intro st h; exact ⟨rfl, h⟩
  | cons e rest ih =>
    intro st h
    have hs := step_found e h
    have hr := ih (step st e) hs.2
    exact ⟨hr.1.trans hs.1, hr.2⟩

/-- C9 (counterexample): the claim says the subprocess is never killed when it
exits on its own before a match; but the 30-second timer is never cleared, so
in a run where the subprocess exits by itself (code 3, outcome already
resolved by the exit), the later timer callback still finds `urlFound` false
and invokes `proc.kill()`. -/
theorem C9_counterexample :
    (runTunnel [TunnelEvent.procExit 3, TunnelEvent.timeout]).killed = true ∧
    (runTunnel [TunnelEvent.procExit 3, TunnelEvent.timeout]).exitMsg = true ∧
    (runTunnel [TunnelEvent.procExit 3, TunnelEvent.timeout]).result = some none :=
  ⟨rfl, rfl, rfl⟩

/-- C9 (amended): `proc.kill()` is invoked exactly by the 30-second timer
callback and only when no URL has been found by then: a run whose timer never
fires kills nothing; after a successful URL match the subprocess is never
killed; but when the subprocess exits on its own before the timer fires, the
never-cleared timer still invokes `proc.kill()` (on the already-exited
process) at the 30-second mark. -/
theorem C9_amended :
    (∀ evs : List TunnelEvent, TunnelEvent.timeout ∉ evs →
      (runTunnel evs).killed = false) ∧
    (∀ l r : List TunnelEvent, (runTunnel l).urlFound = true →
      (runTunnel (l ++ r)).killed = (runTunnel l).killed) ∧
    (∀ c : Int,
      (runTunnel [TunnelEvent.procExit c, TunnelEvent.timeout]).killed = true) := by
  refine ⟨fun evs h => ?_, fun l r h => ?_, fun c => rfl⟩
  · rw [runTunnel, foldl_killed_no_timeout evs initTunnel h]; rfl
  · rw [runTunnel, List.foldl_append]
    exact (foldl_after_found r _ h).1

theorem C9_amended_witness :
    (runTunnel [TunnelEvent.procExit 2]).killed = false ∧
    (runTunnel ([TunnelEvent.stdoutChunk ("https://cd.trycloudflare.com")]
        ++ [TunnelEvent.timeout])).killed
      = (runTunnel [TunnelEvent.stdoutChunk ("https://cd.trycloudflare.com")]).killed :=
  ⟨C9_amended.1 [TunnelEvent.procExit 2] (by decide),
   C9_amended.2.1 [TunnelEvent.stdoutChunk ("https://cd.trycloudflare.com")]
     [TunnelEvent.timeout] (by decide)⟩

theorem basename_no_slash (p : String) :
    ((basename p).data.all (fun c => c != '/')) = true := by
  rw [List.all_eq_true]
  intro c hc
  have hc' : c ∈ ((p.data.reverse.dropWhile (fun c => c == '/')).takeWhile
      (fun c => c != '/')).reverse := hc
  rw [List.mem_reverse] at hc'
  have h2 := List.mem_takeWhile_imp hc'
  simpa using h2

/-- C8: a GET request to `/{accessToken}` is answered with the rendered HTML
page; that page contains the file's base name (which holds no directory
separator) and the size string followed by " MB", where the size value is
`S / 1048576` rounded to two decimal places (the hundredths value `n` printed
by `fileSizeMB` is the integer nearest to `100·S / 2^20`, ties upward). -/
theorem C8_info_page (path tok : String) (size : Nat) :
    (route (mkServedFile path tok size) ("/" ++ tok)).body
      = Body.page (renderHtml (mkServedFile path tok size)) ∧
    (∃ p q, renderHtml (mkServedFile path tok size)
      = p ++ basename path ++ q) ∧
    (∃ p q, renderHtml (mkServedFile path tok size)
      = p ++ (fileSizeMB size ++ " MB") ++ q) ∧
    ((basename path).data.all (fun c => c != '/')) = true ∧
    2 ^ 20 * fixedHundredths size ≤ 100 * size + 2 ^ 19 ∧
    100 * size < 2 ^ 20 * fixedHundredths size + 2 ^ 19 := by
  refine ⟨?_,
    ⟨htmlPart1, htmlPart2 ++ basename path ++ htmlPart3 ++ fileSizeMB size
      ++ " MB" ++ htmlPart4 ++ tok ++ htmlPart5, ?_⟩,
    ⟨htmlPart1 ++ basename path ++ htmlPart2 ++ basename path ++ htmlPart3,
      htmlPart4 ++ tok ++ htmlPart5, ?_⟩,
    basename_no_slash path, ?_, ?_⟩
  · have hne := info_ne_download tok
    simp [route, mkServedFile, hne]
  · simp [renderHtml, mkServedFile, String.append_assoc]
  · simp [renderHtml, mkServedFile, String.append_assoc]
  · unfold fixedHundredths; omega
  · unfold fixedHundredths; omega

end Bundrop
